import Mathlib

/-!
Verification of the SalesAnalytics repository (src/company.py, src/analysis.py,
src/app_streamlit.py) against its natural-language specification.

Shallow embedding conventions:
* Python floats are modelled as exact rationals (`ℚ`); the claims under study
  are exact arithmetic identities, so rounding is out of scope.
* `pandas.Timestamp` is modelled as a calendar `Date` (year, month, day).
* Python exceptions are modelled by `Except ErrKind`; `ErrKind` also contains
  constructors for the error classes the specification names
  (`dataFormatError`, `insufficientDataError`) so that statements can compare
  what the code raises against what the specification promises.  The code
  itself defines no custom exception class.
* In-memory collections (`Company.employees`, `Company.financials`) are passed
  explicitly as lists; pandas DataFrames become lists of row structures.
-/

namespace SalesAnalytics

/-- Kinds of error surfaced by the (modelled) Python code, plus the error
classes named by the specification. `keyError` and `valueError` are the
builtin Python exceptions actually raised; `dataFormatError` and
`insufficientDataError` are the spec's taxonomy, which no code in the
repository defines or raises. -/
inductive ErrKind where
  | keyError
  | valueError
  | dataFormatError
  | insufficientDataError
deriving DecidableEq, Repr

/-- Calendar date standing in for `pandas.Timestamp`. -/
structure Date where
  year : Int
  month : Int
  day : Int
deriving DecidableEq, Repr

/-- `Employee` dataclass from company.py. -/
structure Employee where
  employee_id : Int
  name : String
  department : String
  base_salary : ℚ
  bonus_rate : ℚ
  overtime_hours : ℚ
  overtime_rate : ℚ
deriving DecidableEq, Repr

/-- `Employee.monthly_bonus`: `base_salary * bonus_rate`. -/
def Employee.monthly_bonus (e : Employee) : ℚ := e.base_salary * e.bonus_rate

/-- `Employee.monthly_overtime_pay`: `overtime_hours * overtime_rate`. -/
def Employee.monthly_overtime_pay (e : Employee) : ℚ :=
  e.overtime_hours * e.overtime_rate

/-- `Employee.total_monthly_compensation`. -/
def Employee.total_monthly_compensation (e : Employee) : ℚ :=
  e.base_salary + e.monthly_bonus + e.monthly_overtime_pay

/-- `MonthlyFinancials` dataclass from company.py. -/
structure MonthlyFinancials where
  date : Date
  revenue : ℚ
  cogs : ℚ
  salary_expense : ℚ
  other_expense : ℚ
deriving DecidableEq, Repr

/-- `MonthlyFinancials.profit`. -/
def MonthlyFinancials.profit (f : MonthlyFinancials) : ℚ :=
  f.revenue - f.cogs - f.salary_expense - f.other_expense

/-- `MonthlyFinancials.profit_margin`: the Python source is
`self.profit / self.revenue if self.revenue else 0.0`, i.e. the division is
taken exactly when `revenue` is truthy (nonzero). -/
def MonthlyFinancials.profit_margin (f : MonthlyFinancials) : ℚ :=
  if f.revenue ≠ 0 then f.profit / f.revenue else 0

/-- `Company.total_monthly_salary_from_employees`: sum of all employees'
total monthly compensation (the employee list is the company's in-memory
collection, passed explicitly). -/
def total_monthly_salary_from_employees (employees : List Employee) : ℚ :=
  (employees.map Employee.total_monthly_compensation).sum

/-- `Company.simulate_salary_increase`: the new total scales each
`base_salary` by `(1 + percent_increase)` but re-adds `e.monthly_bonus`,
which the dataclass computes from the ORIGINAL `base_salary`. -/
def simulate_salary_increase (employees : List Employee)
    (percent_increase : ℚ) : ℚ :=
  let current_total := total_monthly_salary_from_employees employees
  let new_total :=
    (employees.map (fun e =>
      e.base_salary * (1 + percent_increase)
        + e.monthly_bonus + e.monthly_overtime_pay)).sum
  new_total - current_total

/-- The single-employee company used by the spec's worked example:
`base_salary=1000, bonus_rate=0.1, overtime_hours=0, overtime_rate=0`. -/
def exampleEmployee : Employee :=
  { employee_id := 1, name := "A", department := "Sales"
    base_salary := 1000, bonus_rate := 1/10
    overtime_hours := 0, overtime_rate := 0 }

/-- C1, counterexample: on the spec's own worked example
(`base_salary=1000, bonus_rate=0.1`, no overtime, `pct=0.10`),
`simulate_salary_increase` returns 100, not the claimed 110: the code's
`monthly_bonus` is computed from the original base salary, so the bonus does
not scale with the new base. -/
theorem C1_counterexample :
    simulate_salary_increase [exampleEmployee] (1/10) = 100 ∧
    simulate_salary_increase [exampleEmployee] (1/10) ≠ 110 := by
  constructor <;>
    norm_num [simulate_salary_increase, total_monthly_salary_from_employees,
      Employee.total_monthly_compensation, Employee.monthly_bonus,
      Employee.monthly_overtime_pay, exampleEmployee]

/-- C1, amended: for every list of in-memory employees and every percentage
`pct`, `simulate_salary_increase pct` returns `new_total − current_total`
where each employee's new total keeps the bonus at `bonus_rate` times the
ORIGINAL base salary and overtime unchanged; the delta therefore equals
`pct` times the sum of the original base salaries (100 on the worked
example, not 110). -/
theorem C1_amended_simulate_salary_increase (employees : List Employee)
    (pct : ℚ) :
    simulate_salary_increase employees pct =
      pct * (employees.map Employee.base_salary).sum := by
  induction employees with
  | nil =>
      simp [simulate_salary_increase, total_monthly_salary_from_employees]
  | cons e es ih =>
      simp only [simulate_salary_increase, total_monthly_salary_from_employees,
        Employee.total_monthly_compensation, Employee.monthly_bonus,
        Employee.monthly_overtime_pay, List.map_cons, List.sum_cons] at ih ⊢
      linear_combination ih

/-- C7: for every financial record, `profit` is exactly
`revenue − cogs − salary_expense − other_expense`, and `profit_margin` is
`profit / revenue` when `revenue ≠ 0` and `0` when `revenue = 0` (the Lean
model is a total function on ℚ: no NaN, no exception). -/
theorem C7_profit_and_margin (f : MonthlyFinancials) :
    f.profit = f.revenue - f.cogs - f.salary_expense - f.other_expense ∧
    (f.revenue ≠ 0 → f.profit_margin = f.profit / f.revenue) ∧
    (f.revenue = 0 → f.profit_margin = 0) := by
  refine ⟨rfl, fun h => ?_, fun h => ?_⟩ <;>
    simp [MonthlyFinancials.profit_margin, h]

/-- C7 witness: the implications of `C7_profit_and_margin` discharged on two
concrete records, one with `revenue = 0` (margin 0) and one with
`revenue = 1000` (margin `profit/revenue`). -/
theorem C7_profit_and_margin_witness :
    ({ date := ⟨2024, 1, 1⟩, revenue := 0, cogs := 1, salary_expense := 2,
       other_expense := 3 } : MonthlyFinancials).profit_margin = 0 ∧
    ({ date := ⟨2024, 1, 1⟩, revenue := 1000, cogs := 400, salary_expense := 200,
       other_expense := 100 } : MonthlyFinancials).profit_margin = 300 / 1000 := by
  constructor
  · exact (C7_profit_and_margin _).2.2 rfl
  · have h := (C7_profit_and_margin
      ({ date := ⟨2024, 1, 1⟩, revenue := 1000, cogs := 400, salary_expense := 200,
         other_expense := 100 } : MonthlyFinancials)).2.1 (by norm_num)
    rw [h]
    norm_num [MonthlyFinancials.profit]

/-- Lexicographic order on calendar dates (the order `pandas` uses to compare
`Timestamp`s when sorting the profit table). -/
def dateLe (a b : Date) : Prop :=
  a.year < b.year ∨ (a.year = b.year ∧
    (a.month < b.month ∨ (a.month = b.month ∧ a.day ≤ b.day)))

instance (a b : Date) : Decidable (dateLe a b) := by
  unfold dateLe; infer_instance

/-- One row of `Company.monthly_profit_df()`: the raw financial fields plus
the derived `profit` / `profit_margin` columns. -/
structure ProfitRow where
  date : Date
  revenue : ℚ
  cogs : ℚ
  salary_expense : ℚ
  other_expense : ℚ
  profit : ℚ
  profit_margin : ℚ
deriving DecidableEq, Repr

/-- The row `Company.monthly_profit_df` builds from one record. -/
def profitRowOf (f : MonthlyFinancials) : ProfitRow :=
  { date := f.date, revenue := f.revenue, cogs := f.cogs
    salary_expense := f.salary_expense, other_expense := f.other_expense
    profit := f.profit, profit_margin := f.profit_margin }

/-- `Company.monthly_profit_df`: one row per in-memory record, sorted
ascending by date (`DataFrame.sort_values("date")`; modelled as a stable
sort, which is what pandas computes on tables of this size). -/
def monthly_profit_df (financials : List MonthlyFinancials) : List ProfitRow :=
  List.insertionSort (fun a b => dateLe a.date b.date)
    (financials.map profitRowOf)

/-- The four KPI fields returned by `analysis.basic_kpis`. -/
structure KPIs where
  total_revenue : ℚ
  total_profit : ℚ
  avg_profit_margin : ℚ
  avg_salary_expense : ℚ
deriving DecidableEq, Repr

/-- `analysis.basic_kpis`: sums over the profit table;
`avg_profit_margin` divides total profit by total revenue only when the
latter is truthy (nonzero); `avg_salary_expense` is the pandas column mean,
i.e. sum divided by row count (on the empty table pandas yields NaN; the ℚ
model yields 0 — no claim touches the empty-table mean). -/
def basic_kpis (df : List ProfitRow) : KPIs :=
  { total_revenue := (df.map ProfitRow.revenue).sum
    total_profit := (df.map ProfitRow.profit).sum
    avg_profit_margin :=
      if (df.map ProfitRow.revenue).sum ≠ 0 then
        (df.map ProfitRow.profit).sum / (df.map ProfitRow.revenue).sum
      else 0
    avg_salary_expense :=
      (df.map ProfitRow.salary_expense).sum / (df.length : ℚ) }

/-- The `avg_margin` value computed inside `Company.summary`:
`total_profit / total_revenue if total_revenue else 0.0` over the company's
`monthly_profit_df()`. -/
def summary_avg_margin (financials : List MonthlyFinancials) : ℚ :=
  let df := monthly_profit_df financials
  let total_revenue := (df.map ProfitRow.revenue).sum
  let total_profit := (df.map ProfitRow.profit).sum
  if total_revenue ≠ 0 then total_profit / total_revenue else 0

/-- The spec's two-row worked example: January `(1000, 400, 200, 100)` and
February `(1200, 450, 200, 120)`. -/
def exampleFinancials : List MonthlyFinancials :=
  [ { date := ⟨2024, 1, 1⟩, revenue := 1000, cogs := 400
      salary_expense := 200, other_expense := 100 },
    { date := ⟨2024, 2, 1⟩, revenue := 1200, cogs := 450
      salary_expense := 200, other_expense := 120 } ]

/-- C6: `basic_kpis` returns the column sums for revenue and profit, the
column mean for salary expense, and the AGGREGATE margin
`total_profit / total_revenue` guarded at zero revenue; on the spec's
two-row example it yields `total_revenue = 2200`, `total_profit = 730`,
`avg_profit_margin = 730/2200`, `avg_salary_expense = 200`. -/
theorem C6_basic_kpis (df : List ProfitRow) :
    (basic_kpis df).total_revenue = (df.map ProfitRow.revenue).sum ∧
    (basic_kpis df).total_profit = (df.map ProfitRow.profit).sum ∧
    (basic_kpis df).avg_salary_expense =
      (df.map ProfitRow.salary_expense).sum / (df.length : ℚ) ∧
    (basic_kpis df).avg_profit_margin =
      (if (df.map ProfitRow.revenue).sum ≠ 0 then
        (df.map ProfitRow.profit).sum / (df.map ProfitRow.revenue).sum
      else 0) ∧
    basic_kpis (monthly_profit_df exampleFinancials) =
      { total_revenue := 2200, total_profit := 730
        avg_profit_margin := 730 / 2200, avg_salary_expense := 200 } := by
  refine ⟨rfl, rfl, rfl, rfl, ?_⟩
  norm_num [monthly_profit_df, exampleFinancials, List.insertionSort,
    List.orderedInsert, dateLe, profitRowOf, basic_kpis,
    MonthlyFinancials.profit, MonthlyFinancials.profit_margin]

/-- C10: the Average Profit Margin computed inside `Company.summary` agrees
with `basic_kpis`' `avg_profit_margin` on the same company's
`monthly_profit_df` — the two independently written aggregate-margin
computations coincide on every input. -/
theorem C10_summary_margin_refines_kpis (financials : List MonthlyFinancials) :
    summary_avg_margin financials =
      (basic_kpis (monthly_profit_df financials)).avg_profit_margin := rfl

/-! ### Database CRUD (company.py, SQLite `employees` table)

The `employees` relation is modelled as its list of rows in storage order
(SQLite rowid order: inserts append, `ON CONFLICT ... DO UPDATE` rewrites the
conflicting row in place). `employee_id` is the primary key. -/

/-- `Company.db_insert_or_update_employee`: `INSERT ... ON CONFLICT(employee_id)
DO UPDATE SET` every non-key field — replace the row with matching key if one
exists, otherwise append. -/
def db_insert_or_update_employee (table : List Employee) (e : Employee) :
    List Employee :=
  if table.any (fun r => r.employee_id = e.employee_id) then
    table.map (fun r => if r.employee_id = e.employee_id then e else r)
  else
    table ++ [e]

/-- `Company.db_get_employee`: `SELECT * FROM employees WHERE employee_id = ?`
then `fetchone()`; `None` when the id is absent. -/
def db_get_employee (table : List Employee) (employee_id : Int) :
    Option Employee :=
  table.find? (fun r => r.employee_id = employee_id)

/-- `Company.db_delete_employee`: `DELETE FROM employees WHERE employee_id = ?`
(deleting an absent id is not an error). -/
def db_delete_employee (table : List Employee) (employee_id : Int) :
    List Employee :=
  table.filter (fun r => r.employee_id ≠ employee_id)

/-- C9: for every prior store state, upserting `e` and then fetching
`e.employee_id` returns exactly `e` (equal in all fields), and deleting any
id and then fetching it returns the absent marker `none`, not an error. -/
theorem C9_db_roundtrip (table : List Employee) (e : Employee) (i : Int) :
    db_get_employee (db_insert_or_update_employee table e) e.employee_id =
      some e ∧
    db_get_employee (db_delete_employee table i) i = none := by
  constructor
  · unfold db_insert_or_update_employee db_get_employee
    by_cases h : table.any (fun r => r.employee_id = e.employee_id) = true
    · rw [if_pos h, List.find?_map]
      have hpg : ((fun r : Employee => decide (r.employee_id = e.employee_id)) ∘
          (fun r => if r.employee_id = e.employee_id then e else r)) =
          fun r : Employee => decide (r.employee_id = e.employee_id) := by
        funext r
        by_cases hr : r.employee_id = e.employee_id <;> simp [hr]
      rw [hpg]
      have hsome : (table.find?
          (fun r => decide (r.employee_id = e.employee_id))).isSome = true :=
        List.find?_isSome.mpr (by simpa using List.any_eq_true.mp h)
      obtain ⟨r1, hr1⟩ := Option.isSome_iff_exists.mp hsome
      have hr1id : r1.employee_id = e.employee_id := by
        simpa using List.find?_some hr1
      rw [hr1]
      simp [hr1id]
    · rw [if_neg h, List.find?_append]
      have hnone : table.find?
          (fun r => decide (r.employee_id = e.employee_id)) = none := by
        rw [List.find?_eq_none]
        intro x hx hpx
        exact h (List.any_eq_true.mpr ⟨x, hx, hpx⟩)
      simp [hnone]
  · unfold db_delete_employee db_get_employee
    rw [List.find?_eq_none]
    intro x hx hpx
    have hne : x.employee_id ≠ i := by simpa using (List.mem_filter.mp hx).2
    exact hne (by simpa using hpx)

/-! ### Salary, tax and expense scenario simulator (app_streamlit.py,
`page_salary_sim`)

The three slider percentages are modelled as rationals; the per-row adjusted
columns and the period totals follow the dataframe computations line by
line. -/

/-- The per-row columns `page_salary_sim` adds to the profit table. -/
structure ScenarioRow where
  salary_expense_adj : ℚ
  other_expense_adj : ℚ
  profit_before_tax_current : ℚ
  profit_before_tax_adj : ℚ
  tax_current : ℚ
  tax_adj : ℚ
  profit_after_tax_current : ℚ
  profit_after_tax_adj : ℚ
deriving DecidableEq, Repr

/-- One row of the simulator: `salary_factor = 1 + salary_pct/100`,
`other_factor = 1 + other_exp_pct/100`, `tax_rate = tax_rate_pct/100`;
tax clips profit before tax at zero (`clip(lower=0)`), the current scenario
always at the fixed baseline `0.20`, the adjusted one at the chosen rate. -/
def scenarioRow (salary_pct tax_rate_pct other_exp_pct : ℚ)
    (r : ProfitRow) : ScenarioRow :=
  let salary_factor := 1 + salary_pct / 100
  let other_factor := 1 + other_exp_pct / 100
  let tax_rate := tax_rate_pct / 100
  let sAdj := r.salary_expense * salary_factor
  let oAdj := r.other_expense * other_factor
  let pbtC := r.revenue - r.cogs - r.salary_expense - r.other_expense
  let pbtA := r.revenue - r.cogs - sAdj - oAdj
  let taxC := max pbtC 0 * (20 / 100)
  let taxA := max pbtA 0 * tax_rate
  { salary_expense_adj := sAdj, other_expense_adj := oAdj
    profit_before_tax_current := pbtC, profit_before_tax_adj := pbtA
    tax_current := taxC, tax_adj := taxA
    profit_after_tax_current := pbtC - taxC
    profit_after_tax_adj := pbtA - taxA }

/-- The eight period totals `page_salary_sim` reports. -/
structure ScenarioTotals where
  total_salary_current : ℚ
  total_salary_adj : ℚ
  total_other_current : ℚ
  total_other_adj : ℚ
  total_tax_current : ℚ
  total_tax_adj : ℚ
  total_profit_current : ℚ
  total_profit_adj : ℚ
deriving DecidableEq, Repr

/-- The totals block of `page_salary_sim`: column sums over the augmented
dataframe. -/
def page_salary_sim_totals (salary_pct tax_rate_pct other_exp_pct : ℚ)
    (df : List ProfitRow) : ScenarioTotals :=
  let rows := df.map (scenarioRow salary_pct tax_rate_pct other_exp_pct)
  { total_salary_current := (df.map ProfitRow.salary_expense).sum
    total_salary_adj := (rows.map ScenarioRow.salary_expense_adj).sum
    total_other_current := (df.map ProfitRow.other_expense).sum
    total_other_adj := (rows.map ScenarioRow.other_expense_adj).sum
    total_tax_current := (rows.map ScenarioRow.tax_current).sum
    total_tax_adj := (rows.map ScenarioRow.tax_adj).sum
    total_profit_current := (rows.map ScenarioRow.profit_after_tax_current).sum
    total_profit_adj := (rows.map ScenarioRow.profit_after_tax_adj).sum }

/-- C8: per record, the current-scenario tax is
`max(profit_before_tax_current, 0) × 0.20` — an expression independent of the
chosen rate — and the adjusted tax is `max(profit_before_tax_adj, 0)` times
the chosen rate; both taxes are nonnegative (for any nonnegative chosen
rate), and after-tax profit is before-tax profit minus tax in both
scenarios; consequently at `salaryPct = 0`, `otherExpensePct = 0`,
`taxRatePct = 20` every adjusted period total equals its current total. -/
theorem C8_scenario_sim (salary_pct tax_rate_pct other_exp_pct : ℚ)
    (df : List ProfitRow) (htax : 0 ≤ tax_rate_pct) :
    (∀ r ∈ df,
      (scenarioRow salary_pct tax_rate_pct other_exp_pct r).tax_current =
        max (r.revenue - r.cogs - r.salary_expense - r.other_expense) 0
          * (20 / 100) ∧
      (scenarioRow salary_pct tax_rate_pct other_exp_pct r).tax_adj =
        max (r.revenue - r.cogs - r.salary_expense * (1 + salary_pct / 100)
          - r.other_expense * (1 + other_exp_pct / 100)) 0
          * (tax_rate_pct / 100) ∧
      0 ≤ (scenarioRow salary_pct tax_rate_pct other_exp_pct r).tax_current ∧
      0 ≤ (scenarioRow salary_pct tax_rate_pct other_exp_pct r).tax_adj ∧
      ScenarioRow.profit_after_tax_current
          (scenarioRow salary_pct tax_rate_pct other_exp_pct r) =
        ScenarioRow.profit_before_tax_current
          (scenarioRow salary_pct tax_rate_pct other_exp_pct r) -
        (scenarioRow salary_pct tax_rate_pct other_exp_pct r).tax_current ∧
      ScenarioRow.profit_after_tax_adj
          (scenarioRow salary_pct tax_rate_pct other_exp_pct r) =
        ScenarioRow.profit_before_tax_adj
          (scenarioRow salary_pct tax_rate_pct other_exp_pct r) -
        (scenarioRow salary_pct tax_rate_pct other_exp_pct r).tax_adj) ∧
    (salary_pct = 0 → other_exp_pct = 0 → tax_rate_pct = 20 →
      ScenarioTotals.total_salary_adj
          (page_salary_sim_totals salary_pct tax_rate_pct other_exp_pct df) =
        ScenarioTotals.total_salary_current
          (page_salary_sim_totals salary_pct tax_rate_pct other_exp_pct df) ∧
      ScenarioTotals.total_other_adj
          (page_salary_sim_totals salary_pct tax_rate_pct other_exp_pct df) =
        ScenarioTotals.total_other_current
          (page_salary_sim_totals salary_pct tax_rate_pct other_exp_pct df) ∧
      ScenarioTotals.total_tax_adj
          (page_salary_sim_totals salary_pct tax_rate_pct other_exp_pct df) =
        ScenarioTotals.total_tax_current
          (page_salary_sim_totals salary_pct tax_rate_pct other_exp_pct df) ∧
      ScenarioTotals.total_profit_adj
          (page_salary_sim_totals salary_pct tax_rate_pct other_exp_pct df) =
        ScenarioTotals.total_profit_current
          (page_salary_sim_totals salary_pct tax_rate_pct other_exp_pct df)) := by
  constructor
  · intro r _
    refine ⟨rfl, rfl, ?_, ?_, rfl, rfl⟩
    · exact mul_nonneg (le_max_right _ 0) (by norm_num)
    · exact mul_nonneg (le_max_right _ 0)
        (div_nonneg htax (by norm_num))
  · intro h1 h2 h3
    subst h1; subst h2; subst h3
    have hsal : ∀ r : ProfitRow,
        (scenarioRow 0 20 0 r).salary_expense_adj = r.salary_expense := by
      intro r; simp [scenarioRow]
    have hoth : ∀ r : ProfitRow,
        (scenarioRow 0 20 0 r).other_expense_adj = r.other_expense := by
      intro r; simp [scenarioRow]
    have htaxrow : ∀ r : ProfitRow,
        (scenarioRow 0 20 0 r).tax_adj = (scenarioRow 0 20 0 r).tax_current := by
      intro r; simp [scenarioRow]
    have hprofrow : ∀ r : ProfitRow,
        (scenarioRow 0 20 0 r).profit_after_tax_adj =
          (scenarioRow 0 20 0 r).profit_after_tax_current := by
      intro r; simp [scenarioRow]
    refine ⟨?_, ?_, ?_, ?_⟩ <;>
      simp only [page_salary_sim_totals, List.map_map, Function.comp_def,
        hsal, hoth, htaxrow, hprofrow]

/-- A one-row profit table used to instantiate the simulator claims. -/
def exampleProfitRow : ProfitRow :=
  profitRowOf { date := ⟨2024, 1, 1⟩, revenue := 1000, cogs := 400
                salary_expense := 200, other_expense := 100 }

/-- C8 witness: `C8_scenario_sim` instantiated at the zero-change scenario
(`salaryPct = 0, otherExpensePct = 0, taxRatePct = 20`) on a concrete
one-row table: the adjusted profit total equals the current one and the
adjusted tax is nonnegative. -/
theorem C8_scenario_sim_witness :
    (page_salary_sim_totals 0 20 0 [exampleProfitRow]).total_profit_adj =
      (page_salary_sim_totals 0 20 0 [exampleProfitRow]).total_profit_current ∧
    0 ≤ (scenarioRow 0 20 0 exampleProfitRow).tax_adj := by
  have h := C8_scenario_sim 0 20 0 [exampleProfitRow] (by norm_num)
  exact ⟨(h.2 rfl rfl rfl).2.2.2,
    (h.1 exampleProfitRow (List.mem_singleton.mpr rfl)).2.2.2.1⟩

/-! ### Revenue model training (analysis.py, `train_sales_model`)

`sklearn.model_selection.train_test_split(X, y, test_size=0.2, shuffle=False)`
keeps the rows in order and takes the trailing `ceil(0.2*n)` rows as the test
portion; it raises a `ValueError` when either resulting portion would be
empty.  The `LinearRegression` fit-then-predict step is an external library
call, modelled as an opaque function `fit` from the training features and
targets to predictions on the test features. -/

/-- One feature row: `month`, `year` (from the record's date), plus the two
expense columns, in the order `feature_cols` lists them. -/
structure FeatRow where
  month : Int
  year : Int
  salary_expense : ℚ
  other_expense : ℚ
deriving DecidableEq, Repr

/-- Feature construction `df["month"] = df["date"].dt.month` etc. -/
def featRowOf (r : ProfitRow) : FeatRow :=
  { month := r.date.month, year := r.date.year
    salary_expense := r.salary_expense, other_expense := r.other_expense }

/-- sklearn test-set size for `test_size = 0.2`: `ceil(0.2 * n)`. -/
def testSize (n : Nat) : Nat := (n + 4) / 5

/-- What `train_sales_model` returns besides the fitted model object:
the test MAE and the held-out features/targets/predictions. -/
structure TrainResult where
  mae : ℚ
  X_test : List FeatRow
  y_test : List ℚ
  y_pred : List ℚ
deriving DecidableEq, Repr

/-- `sklearn.metrics.mean_absolute_error`: mean of `|actual − predicted|`. -/
def mean_absolute_error (yTrue yPred : List ℚ) : ℚ :=
  (List.zipWith (fun a b => |a - b|) yTrue yPred).sum / (yTrue.length : ℚ)

/-- `analysis.train_sales_model`, with the `LinearRegression`
fit-then-predict step abstracted as `fit trainFeatures trainTargets
testFeatures`.  The split is `train_test_split(test_size=0.2, shuffle=False)`:
leading `n - ceil(n/5)` rows train, trailing `ceil(n/5)` rows are held out,
and a `ValueError` is raised when either portion is empty. -/
def train_sales_model
    (fit : List FeatRow → List ℚ → List FeatRow → List ℚ)
    (df : List ProfitRow) : Except ErrKind TrainResult :=
  let X := df.map featRowOf
  let y := df.map ProfitRow.revenue
  let n := df.length
  let nTrain := n - testSize n
  if nTrain = 0 ∨ testSize n = 0 then .error .valueError
  else
    let X_test := X.drop nTrain
    let y_test := y.drop nTrain
    let y_pred := fit (X.take nTrain) (y.take nTrain) X_test
    .ok { mae := mean_absolute_error y_test y_pred
          X_test := X_test, y_test := y_test, y_pred := y_pred }

/-- A concrete stand-in regressor (predicts 0 everywhere), used only to
instantiate theorems at concrete inputs. -/
def fitZero : List FeatRow → List ℚ → List FeatRow → List ℚ :=
  fun _ _ xs => xs.map (fun _ => 0)

/-- A one-record profit table. -/
def oneRowDf : List ProfitRow :=
  [profitRowOf { date := ⟨2024, 1, 1⟩, revenue := 1000, cogs := 400
                 salary_expense := 200, other_expense := 100 }]

/-- C3, counterexample: on a one-record table `train_sales_model` raises the
generic `ValueError` coming from `train_test_split` (the repository defines
no `InsufficientDataError` class at all), so the claimed distinguishable
error kind is not what the code produces. -/
theorem C3_counterexample :
    train_sales_model fitZero oneRowDf = .error .valueError ∧
    ¬ train_sales_model fitZero oneRowDf = .error .insufficientDataError := by
  have h : train_sales_model fitZero oneRowDf = .error .valueError := rfl
  refine ⟨h, fun hc => ?_⟩
  rw [h] at hc
  injection hc with hc2
  exact ErrKind.noConfusion hc2

/-- C3, amended: for every profit table with fewer than 2 records,
`train_sales_model` fails — but with the underlying `ValueError` raised by
`train_test_split` (the train portion would be empty), not with a dedicated
`InsufficientDataError`, which the code never defines. -/
theorem C3_amended_too_few_records
    (fit : List FeatRow → List ℚ → List FeatRow → List ℚ)
    (df : List ProfitRow) (h : df.length < 2) :
    train_sales_model fit df = .error .valueError := by
  simp only [train_sales_model, testSize]
  split
  · rfl
  · omega

/-- C3 witness: `C3_amended_too_few_records` applied to a concrete
one-record table. -/
theorem C3_amended_witness :
    oneRowDf.length < 2 ∧
    train_sales_model fitZero oneRowDf = .error .valueError :=
  ⟨by decide, C3_amended_too_few_records fitZero oneRowDf (by decide)⟩

/-- C5: for every regressor and every profit table with at least 2 rows,
`train_sales_model` succeeds; the regressor is fitted on exactly the leading
`n − ceil(n/5)` feature rows (in order) with their revenues as targets, the
held-out portion is exactly the trailing `ceil(n/5)` rows (no shuffling:
train ++ test re-assembles the original order), the reported error is the
mean absolute error on the held-out portion, and for `n = 10` the split is
8 training rows and 2 held-out rows. -/
theorem C5_chronological_split
    (fit : List FeatRow → List ℚ → List FeatRow → List ℚ)
    (df : List ProfitRow) (h : 2 ≤ df.length) :
    train_sales_model fit df = .ok
      { mae := mean_absolute_error
          ((df.map ProfitRow.revenue).drop (df.length - testSize df.length))
          (fit ((df.map featRowOf).take (df.length - testSize df.length))
            ((df.map ProfitRow.revenue).take (df.length - testSize df.length))
            ((df.map featRowOf).drop (df.length - testSize df.length)))
        X_test := (df.map featRowOf).drop (df.length - testSize df.length)
        y_test := (df.map ProfitRow.revenue).drop (df.length - testSize df.length)
        y_pred := fit ((df.map featRowOf).take (df.length - testSize df.length))
          ((df.map ProfitRow.revenue).take (df.length - testSize df.length))
          ((df.map featRowOf).drop (df.length - testSize df.length)) } ∧
    0 < df.length - testSize df.length ∧
    df.length - testSize df.length < df.length ∧
    ((df.map featRowOf).take (df.length - testSize df.length)).length
      = df.length - testSize df.length ∧
    ((df.map featRowOf).drop (df.length - testSize df.length)).length
      = testSize df.length ∧
    ((df.map featRowOf).take (df.length - testSize df.length)) ++
      ((df.map featRowOf).drop (df.length - testSize df.length))
      = df.map featRowOf ∧
    (df.length = 10 →
      df.length - testSize df.length = 8 ∧ testSize df.length = 2) := by
  refine ⟨?_, ?_, ?_, ?_, ?_, List.take_append_drop _ _, ?_⟩
  · simp only [train_sales_model, testSize]
    split
    · exfalso; omega
    · rfl
  · unfold testSize; omega
  · unfold testSize; omega
  · simp only [List.length_take, List.length_map]
    unfold testSize; omega
  · simp only [List.length_drop, List.length_map]
    unfold testSize; omega
  · intro h10
    unfold testSize
    omega

/-- A ten-record profit table (months 1..10 of 2024). -/
def df10 : List ProfitRow :=
  [ profitRowOf { date := ⟨2024, 1, 1⟩, revenue := 100, cogs := 10
                  salary_expense := 20, other_expense := 5 },
    profitRowOf { date := ⟨2024, 2, 1⟩, revenue := 200, cogs := 20
                  salary_expense := 20, other_expense := 5 },
    profitRowOf { date := ⟨2024, 3, 1⟩, revenue := 300, cogs := 30
                  salary_expense := 20, other_expense := 5 },
    profitRowOf { date := ⟨2024, 4, 1⟩, revenue := 400, cogs := 40
                  salary_expense := 20, other_expense := 5 },
    profitRowOf { date := ⟨2024, 5, 1⟩, revenue := 500, cogs := 50
                  salary_expense := 20, other_expense := 5 },
    profitRowOf { date := ⟨2024, 6, 1⟩, revenue := 600, cogs := 60
                  salary_expense := 20, other_expense := 5 },
    profitRowOf { date := ⟨2024, 7, 1⟩, revenue := 700, cogs := 70
                  salary_expense := 20, other_expense := 5 },
    profitRowOf { date := ⟨2024, 8, 1⟩, revenue := 800, cogs := 80
                  salary_expense := 20, other_expense := 5 },
    profitRowOf { date := ⟨2024, 9, 1⟩, revenue := 900, cogs := 90
                  salary_expense := 20, other_expense := 5 },
    profitRowOf { date := ⟨2024, 10, 1⟩, revenue := 1000, cogs := 100
                  salary_expense := 20, other_expense := 5 } ]

/-- C5 witness: `C5_chronological_split` applied to a concrete ten-record
table: the split is 8 training rows and 2 held-out rows. -/
theorem C5_chronological_split_witness :
    2 ≤ df10.length ∧
    df10.length - testSize df10.length = 8 ∧ testSize df10.length = 2 ∧
    ((df10.map featRowOf).drop (df10.length - testSize df10.length)).length
      = 2 := by
  have h := C5_chronological_split fitZero df10 (by decide)
  refine ⟨by decide, (h.2.2.2.2.2.2 (by decide)).1,
    (h.2.2.2.2.2.2 (by decide)).2, ?_⟩
  rw [h.2.2.2.2.1, (h.2.2.2.2.2.2 (by decide)).2]

/-! ### Bulk ingestion (company.py, `load_employees_from_df` /
`load_financials_from_df`)

A DataFrame cell either belongs to a present column holding a numeric value,
holds non-numeric text, or its column is absent from the frame.  Accessing an
absent column (`row["x"]`) raises `KeyError`; `float`/`int` on non-numeric
text raises `ValueError`; `row.get(col, 0.0)` substitutes the default for an
absent column.  The loads iterate the rows, appending each constructed entity
to the in-memory list, so an exception thrown mid-iteration leaves the
entities of the earlier rows appended. -/

/-- A DataFrame cell. -/
inductive Cell where
  | absent
  | numVal (q : ℚ)
  | textVal (s : String)
deriving DecidableEq, Repr

/-- `int(row[col])`: Python `int()` truncates toward zero. -/
def Cell.requireInt : Cell → Except ErrKind Int
  | .absent => .error .keyError
  | .numVal q => .ok (Int.tdiv q.num (q.den : Int))
  | .textVal _ => .error .valueError

/-- `float(row[col])`. -/
def Cell.requireFloat : Cell → Except ErrKind ℚ
  | .absent => .error .keyError
  | .numVal q => .ok q
  | .textVal _ => .error .valueError

/-- `str(row[col])`: succeeds on any present value. -/
def Cell.requireStr : Cell → Except ErrKind String
  | .absent => .error .keyError
  | .numVal q => .ok (reprStr q)
  | .textVal s => .ok s

/-- `float(row.get(col, 0.0))`. -/
def Cell.getFloatD : Cell → Except ErrKind ℚ
  | .absent => .ok 0
  | .numVal q => .ok q
  | .textVal _ => .error .valueError

/-- A date cell: `pd.to_datetime(row["date"])` raises on an absent column or
an unparseable value. -/
inductive DateCell where
  | absent
  | val (d : Date)
  | malformed (s : String)
deriving DecidableEq, Repr

/-- `pd.to_datetime(row["date"])`. -/
def DateCell.requireDate : DateCell → Except ErrKind Date
  | .absent => .error .keyError
  | .val d => .ok d
  | .malformed _ => .error .valueError

/-- One ingested employee row. -/
structure EmpRawRow where
  employee_id : Cell
  name : Cell
  department : Cell
  base_salary : Cell
  bonus_rate : Cell
  overtime_hours : Cell
  overtime_rate : Cell
deriving DecidableEq, Repr

/-- The `Employee(...)` construction inside `load_employees_from_df`,
field accesses in source order. -/
def parseEmployeeRow (r : EmpRawRow) : Except ErrKind Employee := do
  let eid ← r.employee_id.requireInt
  let nm ← r.name.requireStr
  let dept ← r.department.requireStr
  let bs ← r.base_salary.requireFloat
  let br ← r.bonus_rate.getFloatD
  let oh ← r.overtime_hours.getFloatD
  let orate ← r.overtime_rate.getFloatD
  return { employee_id := eid, name := nm, department := dept
           base_salary := bs, bonus_rate := br
           overtime_hours := oh, overtime_rate := orate }

/-- One ingested financial row. -/
structure FinRawRow where
  date : DateCell
  revenue : Cell
  cogs : Cell
  salary_expense : Cell
  other_expense : Cell
deriving DecidableEq, Repr

/-- The `MonthlyFinancials(...)` construction inside
`load_financials_from_df`. -/
def parseFinancialRow (r : FinRawRow) : Except ErrKind MonthlyFinancials := do
  let d ← r.date.requireDate
  let rev ← r.revenue.requireFloat
  let cg ← r.cogs.requireFloat
  let se ← r.salary_expense.requireFloat
  let oe ← r.other_expense.requireFloat
  return { date := d, revenue := rev, cogs := cg
           salary_expense := se, other_expense := oe }

/-- `Company.load_employees_from_df`: iterate the rows, appending each
constructed employee to the in-memory list; the first failing row aborts the
iteration with its exception, keeping what was already appended. -/
def load_employees_from_df : List EmpRawRow → List Employee →
    List Employee × Option ErrKind
  | [], employees => (employees, none)
  | r :: rs, employees =>
    match parseEmployeeRow r with
    | .ok e => load_employees_from_df rs (employees ++ [e])
    | .error err => (employees, some err)

/-- `Company.load_financials_from_df`, same iteration scheme. -/
def load_financials_from_df : List FinRawRow → List MonthlyFinancials →
    List MonthlyFinancials × Option ErrKind
  | [], financials => (financials, none)
  | r :: rs, financials =>
    match parseFinancialRow r with
    | .ok f => load_financials_from_df rs (financials ++ [f])
    | .error err => (financials, some err)

/-- The employees built from the rows preceding the first malformed row. -/
def parsedEmployeeRows : List EmpRawRow → List Employee
  | [] => []
  | r :: rs =>
    match parseEmployeeRow r with
    | .ok e => e :: parsedEmployeeRows rs
    | .error _ => []

/-- The exception of the first malformed employee row, if any. -/
def firstEmployeeError : List EmpRawRow → Option ErrKind
  | [] => none
  | r :: rs =>
    match parseEmployeeRow r with
    | .ok _ => firstEmployeeError rs
    | .error err => some err

/-- The records built from the rows preceding the first malformed row. -/
def parsedFinancialRows : List FinRawRow → List MonthlyFinancials
  | [] => []
  | r :: rs =>
    match parseFinancialRow r with
    | .ok f => f :: parsedFinancialRows rs
    | .error _ => []

/-- The exception of the first malformed financial row, if any. -/
def firstFinancialError : List FinRawRow → Option ErrKind
  | [] => none
  | r :: rs =>
    match parseFinancialRow r with
    | .ok _ => firstFinancialError rs
    | .error err => some err

/-- `x` can only fail with a builtin Python exception
(KeyError or ValueError). -/
def builtinOnly {α : Type} (x : Except ErrKind α) : Prop :=
  ∀ err, x = .error err → err = .keyError ∨ err = .valueError

theorem builtinOnly_bind {α β : Type} {x : Except ErrKind α}
    {f : α → Except ErrKind β} (hx : builtinOnly x)
    (hf : ∀ a, builtinOnly (f a)) : builtinOnly (x >>= f) := by
  intro err h
  cases x with
  | error e =>
      have he : (Except.error e : Except ErrKind α) >>= f = .error e := rfl
      rw [he] at h
      injection h with h2
      exact h2 ▸ hx e rfl
  | ok a =>
      have ha : (Except.ok a : Except ErrKind α) >>= f = f a := rfl
      rw [ha] at h
      exact hf a err h

theorem requireInt_builtinOnly (c : Cell) : builtinOnly c.requireInt := by
  intro err h
  cases c <;> simp [Cell.requireInt] at h <;> simp [← h]

theorem requireFloat_builtinOnly (c : Cell) : builtinOnly c.requireFloat := by
  intro err h
  cases c <;> simp [Cell.requireFloat] at h <;> simp [← h]

theorem requireStr_builtinOnly (c : Cell) : builtinOnly c.requireStr := by
  intro err h
  cases c <;> simp [Cell.requireStr] at h <;> simp [← h]

theorem getFloatD_builtinOnly (c : Cell) : builtinOnly c.getFloatD := by
  intro err h
  cases c <;> simp [Cell.getFloatD] at h <;> simp [← h]

theorem requireDate_builtinOnly (c : DateCell) : builtinOnly c.requireDate := by
  intro err h
  cases c <;> simp [DateCell.requireDate] at h <;> simp [← h]

theorem pure_builtinOnly {α : Type} (a : α) :
    builtinOnly (pure a : Except ErrKind α) := by
  intro err h
  simp [pure, Except.pure] at h

theorem parseEmployeeRow_builtinOnly (r : EmpRawRow) :
    builtinOnly (parseEmployeeRow r) := by
  unfold parseEmployeeRow
  refine builtinOnly_bind (requireInt_builtinOnly _) (fun _ => ?_)
  refine builtinOnly_bind (requireStr_builtinOnly _) (fun _ => ?_)
  refine builtinOnly_bind (requireStr_builtinOnly _) (fun _ => ?_)
  refine builtinOnly_bind (requireFloat_builtinOnly _) (fun _ => ?_)
  refine builtinOnly_bind (getFloatD_builtinOnly _) (fun _ => ?_)
  refine builtinOnly_bind (getFloatD_builtinOnly _) (fun _ => ?_)
  refine builtinOnly_bind (getFloatD_builtinOnly _) (fun _ => ?_)
  exact pure_builtinOnly _

theorem parseFinancialRow_builtinOnly (r : FinRawRow) :
    builtinOnly (parseFinancialRow r) := by
  unfold parseFinancialRow
  refine builtinOnly_bind (requireDate_builtinOnly _) (fun _ => ?_)
  refine builtinOnly_bind (requireFloat_builtinOnly _) (fun _ => ?_)
  refine builtinOnly_bind (requireFloat_builtinOnly _) (fun _ => ?_)
  refine builtinOnly_bind (requireFloat_builtinOnly _) (fun _ => ?_)
  refine builtinOnly_bind (requireFloat_builtinOnly _) (fun _ => ?_)
  exact pure_builtinOnly _

theorem firstEmployeeError_builtin (rows : List EmpRawRow) :
    ∀ err, firstEmployeeError rows = some err →
      err = .keyError ∨ err = .valueError := by
  induction rows with
  | nil => intro err h; simp [firstEmployeeError] at h
  | cons r rs ih =>
      intro err h
      cases hp : parseEmployeeRow r with
      | ok e =>
          rw [firstEmployeeError, hp] at h
          exact ih err h
      | error e0 =>
          rw [firstEmployeeError, hp] at h
          injection h with h2
          exact h2 ▸ parseEmployeeRow_builtinOnly r e0 hp


theorem firstFinancialError_builtin (rows : List FinRawRow) :
    ∀ err, firstFinancialError rows = some err →
      err = .keyError ∨ err = .valueError := by
  induction rows with
  | nil => intro err h; simp [firstFinancialError] at h
  | cons r rs ih =>
      intro err h
      cases hp : parseFinancialRow r with
      | ok f =>
          rw [firstFinancialError, hp] at h
          exact ih err h
      | error e0 =>
          rw [firstFinancialError, hp] at h
          injection h with h2
          exact h2 ▸ parseFinancialRow_builtinOnly r e0 hp

theorem load_employees_from_df_eq (rows : List EmpRawRow)
    (prior : List Employee) :
    load_employees_from_df rows prior =
      (prior ++ parsedEmployeeRows rows, firstEmployeeError rows) := by
  induction rows generalizing prior with
  | nil =>
      simp [load_employees_from_df, parsedEmployeeRows, firstEmployeeError]
  | cons r rs ih =>
      cases hp : parseEmployeeRow r with
      | ok e =>
          simp [load_employees_from_df, parsedEmployeeRows,
            firstEmployeeError, hp, ih]
      | error err =>
          simp [load_employees_from_df, parsedEmployeeRows,
            firstEmployeeError, hp]

theorem load_financials_from_df_eq (rows : List FinRawRow)
    (prior : List MonthlyFinancials) :
    load_financials_from_df rows prior =
      (prior ++ parsedFinancialRows rows, firstFinancialError rows) := by
  induction rows generalizing prior with
  | nil =>
      simp [load_financials_from_df, parsedFinancialRows, firstFinancialError]
  | cons r rs ih =>
      cases hp : parseFinancialRow r with
      | ok f =>
          simp [load_financials_from_df, parsedFinancialRows,
            firstFinancialError, hp, ih]
      | error err =>
          simp [load_financials_from_df, parsedFinancialRows,
            firstFinancialError, hp]

/-- A well-formed employee row (id 1, Alice, Sales, 1000, defaults 0). -/
def goodEmpRow : EmpRawRow :=
  { employee_id := .numVal 1, name := .textVal "Alice"
    department := .textVal "Sales", base_salary := .numVal 1000
    bonus_rate := .numVal 0, overtime_hours := .numVal 0
    overtime_rate := .numVal 0 }

/-- A malformed employee row: non-numeric `base_salary`. -/
def badEmpRow : EmpRawRow :=
  { employee_id := .numVal 2, name := .textVal "Bob"
    department := .textVal "Ops", base_salary := .textVal "n/a"
    bonus_rate := .numVal 0, overtime_hours := .numVal 0
    overtime_rate := .numVal 0 }

/-- The employee `goodEmpRow` parses to. -/
def goodEmployee : Employee :=
  { employee_id := 1, name := "Alice", department := "Sales"
    base_salary := 1000, bonus_rate := 0
    overtime_hours := 0, overtime_rate := 0 }

/-- C2, counterexample: loading `[goodEmpRow, badEmpRow]` into an empty
collection raises the builtin `ValueError` (not a `DataFormatError`, which
the repository never defines) and leaves the collection holding the employee
built from the first row — partially populated, not as it was before the
call. -/
theorem C2_counterexample :
    (load_employees_from_df [goodEmpRow, badEmpRow] []).1 = [goodEmployee] ∧
    (load_employees_from_df [goodEmpRow, badEmpRow] []).1 ≠ ([] : List Employee) ∧
    (load_employees_from_df [goodEmpRow, badEmpRow] []).2 = some .valueError ∧
    (load_employees_from_df [goodEmpRow, badEmpRow] []).2 ≠ some .dataFormatError := by
  have h1 : (load_employees_from_df [goodEmpRow, badEmpRow] []).1 =
      [goodEmployee] := rfl
  have h2 : (load_employees_from_df [goodEmpRow, badEmpRow] []).2 =
      some .valueError := rfl
  refine ⟨h1, ?_, h2, ?_⟩
  · rw [h1]; simp
  · rw [h2]; simp

/-- C2, amended: each bulk load processes rows in order and aborts at the
first malformed row with the builtin exception that row raises (a KeyError
for a missing field, a ValueError for a non-numeric value — never a
`DataFormatError`, which the code does not define), leaving the in-memory
collection extended by exactly the entities built from the preceding rows:
partially populated rather than restored to its pre-call state. -/
theorem C2_amended_loads (empRows : List EmpRawRow) (priorE : List Employee)
    (finRows : List FinRawRow) (priorF : List MonthlyFinancials) :
    load_employees_from_df empRows priorE =
      (priorE ++ parsedEmployeeRows empRows, firstEmployeeError empRows) ∧
    load_financials_from_df finRows priorF =
      (priorF ++ parsedFinancialRows finRows, firstFinancialError finRows) ∧
    (∀ err, firstEmployeeError empRows = some err →
      err = .keyError ∨ err = .valueError) ∧
    (∀ err, firstFinancialError finRows = some err →
      err = .keyError ∨ err = .valueError) :=
  ⟨load_employees_from_df_eq empRows priorE,
   load_financials_from_df_eq finRows priorF,
   firstEmployeeError_builtin empRows,
   firstFinancialError_builtin finRows⟩

/-- A malformed financial row: missing `date` column. -/
def badFinRow : FinRawRow :=
  { date := .absent, revenue := .numVal 100, cogs := .numVal 10
    salary_expense := .numVal 5, other_expense := .numVal 1 }

/-- C2 witness: `C2_amended_loads` instantiated on concrete rows, with the
inner implications discharged: the employee load stops at the `ValueError`
of the malformed second row, and a financial row with a missing date column
yields a `KeyError` — both builtin exceptions. -/
theorem C2_amended_loads_witness :
    load_employees_from_df [goodEmpRow, badEmpRow] [] =
      ([] ++ parsedEmployeeRows [goodEmpRow, badEmpRow],
        firstEmployeeError [goodEmpRow, badEmpRow]) ∧
    (ErrKind.valueError = .keyError ∨ ErrKind.valueError = .valueError) ∧
    (ErrKind.keyError = .keyError ∨ ErrKind.keyError = .valueError) := by
  have h := C2_amended_loads [goodEmpRow, badEmpRow] [] [badFinRow] []
  exact ⟨h.1, h.2.2.1 .valueError rfl, h.2.2.2 .keyError rfl⟩

/-! ### Department salary breakdown (company.py,
`department_salary_breakdown`)

The Python dict accumulates per-department totals in first-appearance order;
the resulting rows are sorted by `sort_values("total_monthly_salary",
ascending=False)`.  pandas implements a descending sort by argsorting
ascending and reversing the indexer (`nargsort`), so rows with equal totals
come out in the REVERSE of their insertion order; the ascending argsort is
modelled as a stable sort, which is what numpy computes on tables of this
size. -/

/-- One iteration of the accumulation dict:
`records.setdefault(dept, 0.0); records[dept] += comp`. -/
def addComp (acc : List (String × ℚ)) (e : Employee) : List (String × ℚ) :=
  if acc.any (fun p => p.1 = e.department) then
    acc.map (fun p =>
      if p.1 = e.department then (p.1, p.2 + e.total_monthly_compensation)
      else p)
  else
    acc ++ [(e.department, e.total_monthly_compensation)]

/-- The accumulated `records` dict, in insertion (first-appearance) order. -/
def deptTotals (employees : List Employee) : List (String × ℚ) :=
  employees.foldl addComp []

/-- `Company.department_salary_breakdown`: rows sorted descending by total
(stable ascending sort, then reverse — pandas `ascending=False`). -/
def department_salary_breakdown (employees : List Employee) :
    List (String × ℚ) :=
  (List.insertionSort (fun p q => p.2 ≤ q.2) (deptTotals employees)).reverse

instance : IsTotal (String × ℚ) (fun p q => p.2 ≤ q.2) :=
  ⟨fun a b => le_total a.2 b.2⟩

instance : IsTrans (String × ℚ) (fun p q => p.2 ≤ q.2) :=
  ⟨fun _ _ _ h1 h2 => le_trans h1 h2⟩

/-- `records[d]`, when present. -/
def lookupDept (l : List (String × ℚ)) (d : String) : Option ℚ :=
  (l.find? (fun p => p.1 = d)).map Prod.snd

/-- Total compensation of the employees of department `d`. -/
def deptFilterSum (employees : List Employee) (d : String) : ℚ :=
  ((employees.filter (fun e => e.department = d)).map
    Employee.total_monthly_compensation).sum

theorem lookupDept_addComp (acc : List (String × ℚ)) (e : Employee)
    (d : String) :
    lookupDept (addComp acc e) d =
      if d = e.department then
        some ((lookupDept acc d).getD 0 + e.total_monthly_compensation)
      else lookupDept acc d := by
  unfold addComp
  by_cases hany : acc.any (fun p => p.1 = e.department) = true
  · rw [if_pos hany]
    unfold lookupDept
    rw [List.find?_map]
    have hcomp : ((fun p : String × ℚ => decide (p.1 = d)) ∘
        (fun p : String × ℚ =>
          if p.1 = e.department then (p.1, p.2 + e.total_monthly_compensation)
          else p)) = fun p : String × ℚ => decide (p.1 = d) := by
      funext p
      by_cases hp : p.1 = e.department <;> simp [hp]
    rw [hcomp]
    by_cases hd : d = e.department
    · rw [if_pos hd]
      have hsome : (acc.find? (fun p => decide (p.1 = d))).isSome = true := by
        rw [List.find?_isSome]
        obtain ⟨p, hp, hp1⟩ := List.any_eq_true.mp hany
        refine ⟨p, hp, ?_⟩
        simpa [hd] using hp1
      obtain ⟨p0, hp0⟩ := Option.isSome_iff_exists.mp hsome
      have hp01 : p0.1 = d := by simpa using List.find?_some hp0
      rw [hp0]
      simp [hp01, hd]
    · rw [if_neg hd]
      cases hfa : acc.find? (fun p => decide (p.1 = d)) with
      | none => simp
      | some p0 =>
          have hp01 : p0.1 = d := by simpa using List.find?_some hfa
          have hp0ne : ¬ p0.1 = e.department := by
            rw [hp01]; exact hd
          simp [hp0ne]
  · rw [if_neg hany]
    unfold lookupDept
    rw [List.find?_append]
    by_cases hd : d = e.department
    · rw [if_pos hd]
      have hnone : acc.find? (fun p => decide (p.1 = d)) = none := by
        rw [List.find?_eq_none]
        intro x hx hpx
        apply hany
        rw [List.any_eq_true]
        exact ⟨x, hx, by simpa [hd] using hpx⟩
      rw [hnone]
      simp [List.find?, hd.symm]
    · rw [if_neg hd]
      have hnone2 : [(e.department, e.total_monthly_compensation)].find?
          (fun p => decide (p.1 = d)) = none := by
        rw [List.find?_eq_none]
        intro x hx hpx
        rw [List.mem_singleton] at hx
        rw [hx] at hpx
        have hed : e.department = d := by simpa using hpx
        exact hd hed.symm
      rw [hnone2]
      simp

theorem lookupDept_foldl_some (es : List Employee) :
    ∀ (acc : List (String × ℚ)) (d : String) (v : ℚ),
      lookupDept acc d = some v →
      lookupDept (es.foldl addComp acc) d = some (v + deptFilterSum es d) := by
  induction es with
  | nil =>
      intro acc d v h
      simpa [deptFilterSum] using h
  | cons e es ih =>
      intro acc d v h
      rw [List.foldl_cons]
      by_cases hd : d = e.department
      · have h2 : lookupDept (addComp acc e) d =
            some (v + e.total_monthly_compensation) := by
          rw [lookupDept_addComp, if_pos hd, h]
          rfl
        rw [ih (addComp acc e) d _ h2]
        have hpred : e.department = d := hd.symm
        unfold deptFilterSum
        rw [List.filter_cons]
        simp [hpred]
        ring
      · have h2 : lookupDept (addComp acc e) d = some v := by
          rw [lookupDept_addComp, if_neg hd]
          exact h
        rw [ih (addComp acc e) d v h2]
        have hpred : ¬ e.department = d := fun hh => hd hh.symm
        unfold deptFilterSum
        rw [List.filter_cons]
        simp [hpred]

theorem lookupDept_foldl_none (es : List Employee) :
    ∀ (acc : List (String × ℚ)) (d : String),
      lookupDept acc d = none →
      lookupDept (es.foldl addComp acc) d =
        (if es.any (fun e => e.department = d) then
          some (deptFilterSum es d)
        else none) := by
  induction es with
  | nil =>
      intro acc d h
      simpa using h
  | cons e es ih =>
      intro acc d h
      rw [List.foldl_cons]
      by_cases hd : d = e.department
      · have h2 : lookupDept (addComp acc e) d =
            some (0 + e.total_monthly_compensation) := by
          rw [lookupDept_addComp, if_pos hd, h]
          rfl
        rw [lookupDept_foldl_some es _ d _ h2]
        have hpred : e.department = d := hd.symm
        have hany : (e :: es).any (fun x => x.department = d) = true := by
          simp [hpred]
        rw [if_pos hany]
        unfold deptFilterSum
        rw [List.filter_cons]
        simp [hpred]
      · have h2 : lookupDept (addComp acc e) d = none := by
          rw [lookupDept_addComp, if_neg hd]
          exact h
        rw [ih (addComp acc e) d h2]
        have hpred : ¬ e.department = d := fun hh => hd hh.symm
        simp [List.any_cons, hpred, deptFilterSum, List.filter_cons]

theorem keys_addComp (acc : List (String × ℚ)) (e : Employee) :
    (addComp acc e).map Prod.fst =
      if acc.any (fun p => p.1 = e.department) then acc.map Prod.fst
      else acc.map Prod.fst ++ [e.department] := by
  unfold addComp
  by_cases hany : acc.any (fun p => p.1 = e.department) = true
  · rw [if_pos hany, if_pos hany, List.map_map]
    have hfst : (Prod.fst ∘ (fun p : String × ℚ =>
        if p.1 = e.department then (p.1, p.2 + e.total_monthly_compensation)
        else p)) = Prod.fst := by
      funext p
      by_cases hp : p.1 = e.department <;> simp [hp]
    rw [hfst]
  · rw [if_neg hany, if_neg hany]
    simp

theorem keys_nodup_foldl (es : List Employee) :
    ∀ acc : List (String × ℚ), (acc.map Prod.fst).Nodup →
      ((es.foldl addComp acc).map Prod.fst).Nodup := by
  induction es with
  | nil => intro acc h; simpa using h
  | cons e es ih =>
      intro acc h
      rw [List.foldl_cons]
      apply ih
      rw [keys_addComp]
      by_cases hany : acc.any (fun p => p.1 = e.department) = true
      · rw [if_pos hany]; exact h
      · rw [if_neg hany]
        have hnotin : e.department ∉ acc.map Prod.fst := by
          intro hmem
          apply hany
          rw [List.any_eq_true]
          obtain ⟨p, hp, hp1⟩ := List.mem_map.mp hmem
          exact ⟨p, hp, by simp [hp1]⟩
        simp [List.nodup_append, h, hnotin]

theorem mem_keys_addComp (acc : List (String × ℚ)) (e : Employee) :
    e.department ∈ (addComp acc e).map Prod.fst := by
  rw [keys_addComp]
  by_cases hany : acc.any (fun p => p.1 = e.department) = true
  · rw [if_pos hany]
    obtain ⟨p, hp, hp1⟩ := List.any_eq_true.mp hany
    exact List.mem_map.mpr ⟨p, hp, by simpa using hp1⟩
  · rw [if_neg hany]
    simp

theorem keys_mono_foldl (es : List Employee) :
    ∀ (acc : List (String × ℚ)) (d : String), d ∈ acc.map Prod.fst →
      d ∈ (es.foldl addComp acc).map Prod.fst := by
  induction es with
  | nil => intro acc d h; simpa using h
  | cons e es ih =>
      intro acc d h
      rw [List.foldl_cons]
      apply ih
      rw [keys_addComp]
      by_cases hany : acc.any (fun p => p.1 = e.department) = true
      · rw [if_pos hany]; exact h
      · rw [if_neg hany]
        exact List.mem_append_left _ h

theorem coverage_foldl (es : List Employee) :
    ∀ (acc : List (String × ℚ)), ∀ e ∈ es,
      e.department ∈ (es.foldl addComp acc).map Prod.fst := by
  induction es with
  | nil => intro acc e he; cases he
  | cons e0 es ih =>
      intro acc e he
      rw [List.foldl_cons]
      rcases List.mem_cons.mp he with he | he
      · rw [he]
        exact keys_mono_foldl es (addComp acc e0) e0.department
          (mem_keys_addComp acc e0)
      · exact ih (addComp acc e0) e he

theorem find?_eq_of_mem_nodupKeys (l : List (String × ℚ)) (p : String × ℚ)
    (hnd : (l.map Prod.fst).Nodup) (hp : p ∈ l) :
    l.find? (fun q => q.1 = p.1) = some p := by
  induction l with
  | nil => cases hp
  | cons q l ih =>
      have hnd2 : (q.1 :: l.map Prod.fst).Nodup := by simpa using hnd
      rcases List.mem_cons.mp hp with h | h
      · rw [← h]
        simp [List.find?_cons]
      · have hq : ¬ q.1 = p.1 := by
          intro hqq
          have hin : p.1 ∈ l.map Prod.fst := List.mem_map.mpr ⟨p, h, rfl⟩
          exact (List.nodup_cons.mp hnd2).1 (hqq ▸ hin)
        rw [List.find?_cons]
        have hqd : (decide (q.1 = p.1)) = false := by simp [hq]
        simp only [hqd]
        exact ih (List.nodup_cons.mp hnd2).2 h


/-- Three employees with equal totals whose departments first appear in the
order B, A, C. -/
def tieEmployees : List Employee :=
  [ { employee_id := 1, name := "x", department := "B", base_salary := 100
      bonus_rate := 0, overtime_hours := 0, overtime_rate := 0 },
    { employee_id := 2, name := "y", department := "A", base_salary := 100
      bonus_rate := 0, overtime_hours := 0, overtime_rate := 0 },
    { employee_id := 3, name := "z", department := "C", base_salary := 100
      bonus_rate := 0, overtime_hours := 0, overtime_rate := 0 } ]

/-- C4, counterexample: on three equal-total departments inserted in the
order B, A, C the breakdown comes out `[C, A, B]` — not the name-ascending
`[A, B, C]` the claim promises for ties (the code never sorts by name; the
tie order is what the descending sort leaves, the reverse of insertion
order). -/
theorem C4_counterexample :
    department_salary_breakdown tieEmployees =
      [("C", 100), ("A", 100), ("B", 100)] ∧
    department_salary_breakdown tieEmployees ≠
      [("A", 100), ("B", 100), ("C", 100)] := by
  have h1 : department_salary_breakdown tieEmployees =
      [("C", 100), ("A", 100), ("B", 100)] := by
    norm_num [department_salary_breakdown, deptTotals, addComp, tieEmployees,
      List.insertionSort, List.orderedInsert,
      Employee.total_monthly_compensation, Employee.monthly_bonus,
      Employee.monthly_overtime_pay]
  refine ⟨h1, ?_⟩
  rw [h1]
  simp

/-- C4, amended: `department_salary_breakdown` returns one row per distinct
department of the in-memory employees (no duplicate departments, every
employee's department present), each row carrying the department's summed
`total_monthly_compensation`, and the rows sorted weakly descending by
total; equal-total rows are NOT ordered by department name — they come out
in the reverse of the departments' first-appearance order (the stable
ascending sort reversed by `ascending=False`). -/
theorem C4_amended_breakdown (employees : List Employee) :
    List.Pairwise (fun a b : String × ℚ => b.2 ≤ a.2)
      (department_salary_breakdown employees) ∧
    ((department_salary_breakdown employees).map Prod.fst).Nodup ∧
    (∀ e ∈ employees,
      e.department ∈ (department_salary_breakdown employees).map Prod.fst) ∧
    (∀ p ∈ department_salary_breakdown employees,
      p.2 = ((employees.filter (fun e => e.department = p.1)).map
        Employee.total_monthly_compensation).sum) := by
  have hperm : (department_salary_breakdown employees).Perm
      (deptTotals employees) := by
    unfold department_salary_breakdown
    exact (List.reverse_perm _).trans (List.perm_insertionSort _ _)
  have hkeysnd : ((deptTotals employees).map Prod.fst).Nodup :=
    keys_nodup_foldl employees [] (by simp)
  refine ⟨?_, ?_, ?_, ?_⟩
  · unfold department_salary_breakdown
    apply List.pairwise_reverse.mpr
    exact List.sorted_insertionSort (fun p q => p.2 ≤ q.2) (deptTotals employees)
  · exact ((hperm.map Prod.fst).nodup_iff).mpr hkeysnd
  · intro e he
    have h1 : e.department ∈ (deptTotals employees).map Prod.fst := by
      unfold deptTotals
      exact coverage_foldl employees [] e he
    exact ((hperm.map Prod.fst).mem_iff).mpr h1
  · intro p hp
    have hpd : p ∈ deptTotals employees := (hperm.mem_iff).mp hp
    have hfind : (deptTotals employees).find? (fun q => q.1 = p.1) = some p :=
      find?_eq_of_mem_nodupKeys _ p hkeysnd hpd
    have hlk : lookupDept (deptTotals employees) p.1 = some p.2 := by
      unfold lookupDept
      rw [hfind]
      rfl
    have h5 := lookupDept_foldl_none employees [] p.1 rfl
    unfold deptTotals at hlk
    rw [h5] at hlk
    by_cases hany : employees.any (fun e => e.department = p.1) = true
    · rw [if_pos hany] at hlk
      injection hlk with h6
      unfold deptFilterSum at h6
      exact h6.symm
    · rw [if_neg hany] at hlk
      exact absurd hlk (by simp)

/-- C4 witness: `C4_amended_breakdown` instantiated on the concrete
tie-break scenario, discharging the membership hypotheses: department B is
present in the breakdown, and the row `("C", 100)` carries department C's
summed compensation. -/
theorem C4_amended_breakdown_witness :
    ("B" : String) ∈ (department_salary_breakdown tieEmployees).map Prod.fst ∧
    (("C", (100 : ℚ)) : String × ℚ).2 =
      ((tieEmployees.filter
        (fun e => e.department = (("C", (100 : ℚ)) : String × ℚ).1)).map
        Employee.total_monthly_compensation).sum := by
  have h := C4_amended_breakdown tieEmployees
  constructor
  · have hmem : (⟨1, "x", "B", 100, 0, 0, 0⟩ : Employee) ∈ tieEmployees := by
      simp [tieEmployees]
    exact h.2.2.1 _ hmem
  · have hmem2 : (("C", (100 : ℚ)) : String × ℚ) ∈
        department_salary_breakdown tieEmployees := by
      norm_num [department_salary_breakdown, deptTotals, addComp, tieEmployees,
        List.insertionSort, List.orderedInsert,
        Employee.total_monthly_compensation, Employee.monthly_bonus,
        Employee.monthly_overtime_pay]
    exact h.2.2.2 _ hmem2

end SalesAnalytics
